import Mathlib

/-!
Shallow embedding of the beets `replaygain` plugin
(`src/beetsplug/replaygain.py`) for verifying the natural-language
specification.

Modelling conventions:
* Python floats are modelled as exact rationals (`ℚ`); the numeric claims
  here only involve exact decimal values, divisions by powers of two and
  zero tests, so no rounding behaviour is at stake.
* A library `Item` carries the fields the plugin reads and writes
  (`path`, `format`, `rg_track_gain`, `rg_track_peak`, and the per-item
  album fields consulted by `album_requires_gain`); an unset field is
  `none`, and Python truthiness of a field is `truthy` below
  (`None` and `0.0` are falsy).
* The external `mp3gain`/`aacgain` process is a parameter
  `tool : List String → Except RGError String`: given the argument vector
  it either returns the decoded standard output or fails the way `call`
  does (non-zero exit, argument-encoding failure).
* Python exceptions that escape a function are modelled with
  `Except PyError`; exceptions caught inside (the `try` around `call` in
  `compute_gain`) do not appear in the result type of that function.
* `compute_gain` returns `Option (List Gain)` inside `Except`: the source
  function returns `None` (here `none`) after logging a warning when the
  external call fails, and a list otherwise.
-/

namespace Beets

/-- Python `TypeError` / `IndexError` / `ValueError` / `AttributeError`,
as raised by the operations modelled here. -/
inductive PyError where
  | typeError
  | indexError
  | valueError
  | attributeError
deriving DecidableEq, Repr

/-- The failures of `call` (replaygain.py lines 36-50): the external
process exited with a non-zero status, or argument encoding failed. -/
inductive RGError where
  | exited (code : Int)
  | encodingFailed
deriving DecidableEq, Repr

/-- The external command-line tool: argument vector to decoded stdout,
or a `ReplayGainError` as raised by `call`. -/
def Tool : Type := List String → Except RGError String

/-- `Backend.Gain` namedtuple (line 53). -/
structure Gain where
  gain : ℚ
  peak : ℚ
deriving DecidableEq, Repr

/-- `Backend.AlbumGain` namedtuple (line 54); `album_gain` is `none` in
the unavailable result `AlbumGain(None, [])`. -/
structure AlbumGain where
  album_gain : Option Gain
  track_gains : List Gain
deriving DecidableEq, Repr

/-- A library track with the fields the plugin touches. -/
structure Item where
  path : String
  format : String
  rg_track_gain : Option ℚ
  rg_track_peak : Option ℚ
  rg_album_gain : Option ℚ
  rg_album_peak : Option ℚ
deriving DecidableEq, Repr

/-- A library album: its own replaygain fields plus its ordered tracks
(`album.items()`). -/
structure Album where
  rg_album_gain : Option ℚ
  rg_album_peak : Option ℚ
  items : List Item
deriving DecidableEq, Repr

/-- Python truthiness of an optional float field: `None` and `0.0` are
falsy, everything else truthy. -/
def truthy : Option ℚ → Bool
  | none => false
  | some q => !(q == 0)

/-- Whether the character list `pat` occurs starting at the head of `hay`. -/
def charsStartWith : List Char → List Char → Bool
  | [], _ => true
  | _ :: _, [] => false
  | a :: as, b :: bs => a == b && charsStartWith as bs

/-- Whether the character list `pat` occurs contiguously anywhere in `hay`. -/
def charsContain (pat : List Char) : List Char → Bool
  | [] => charsStartWith pat []
  | l@(_ :: rest) => charsStartWith pat l || charsContain pat rest

/-- Python `pat in hay` on strings: substring containment. -/
def strContains (hay pat : String) : Bool :=
  charsContain pat.data hay.data

/-- Python `s.split(sep)` for a one-character separator (the only kind
the source uses: `'\n'`, `'\t'`, `'.'`), on character lists. -/
def splitOnChar (sep : Char) : List Char → List (List Char)
  | [] => [[]]
  | c :: cs =>
    if c == sep then [] :: splitOnChar sep cs
    else
      match splitOnChar sep cs with
      | [] => [[c]]
      | h :: t => (c :: h) :: t

/-- Python `s.split(sep)` for a one-character separator, on strings. -/
def strSplit (s : String) (sep : Char) : List String :=
  (splitOnChar sep s.data).map (fun cs => String.mk cs)

/-- All characters are ASCII decimal digits. -/
def allDigits (cs : List Char) : Bool :=
  cs.all (fun c => c.isDigit)

/-- Value of a digit string (used only under `allDigits`). -/
def digitsToNat (cs : List Char) : Nat :=
  cs.foldl (fun a c => a * 10 + (c.toNat - 48)) 0

/-- Python `int(s)` on the decimal integer strings the tool emits. -/
def pyParseInt (s : String) : Except PyError Int :=
  let core : List Char → Except PyError Int := fun cs =>
    if cs ≠ [] ∧ allDigits cs then .ok (digitsToNat cs : Int) else .error .valueError
  match s.data with
  | '-' :: rest => (core rest).map (fun n => -n)
  | '+' :: rest => core rest
  | cs => core cs

/-- Unsigned decimal literal `digits[.digits]` as an exact rational. -/
def parseUnsignedRat (cs : List Char) : Except PyError ℚ :=
  match splitOnChar '.' cs with
  | [ds] =>
    if ds ≠ [] ∧ allDigits ds then .ok (digitsToNat ds : ℚ) else .error .valueError
  | [ds, fs] =>
    if (ds ≠ [] ∨ fs ≠ []) ∧ allDigits ds ∧ allDigits fs then
      .ok ((digitsToNat ds : ℚ) + (digitsToNat fs : ℚ) / 10 ^ fs.length)
    else .error .valueError
  | _ => .error .valueError

/-- Python `float(s)` on the decimal literals the tool emits, as an exact
rational. -/
def pyParseFloat (s : String) : Except PyError ℚ :=
  match s.data with
  | '-' :: rest => (parseUnsignedRat rest).map (fun q => -q)
  | '+' :: rest => parseUnsignedRat rest
  | cs => parseUnsignedRat cs

/-- Python `parts[i]`: `IndexError` when out of range. -/
def pyGetStr (l : List String) (i : Nat) : Except PyError String :=
  match l.get? i with
  | some s => .ok s
  | none => .error .indexError

/-- One iteration of the loop body of `parse_tool_output`
(lines 163-174): split the line on tabs, take the fields positionally
(`file, mp3gain, gain, peak, maxgain, mingain`), build the `Gain` from
field 2 and field 3 divided by `1 << 15`. -/
def parse_line (line : String) : Except PyError Gain := do
  let parts := strSplit line '\t'
  let _file ← pyGetStr parts 0
  let _mp3gain ← pyParseInt (← pyGetStr parts 1)
  let gain ← pyParseFloat (← pyGetStr parts 2)
  let peak ← pyParseFloat (← pyGetStr parts 3)
  let _maxgain ← pyParseInt (← pyGetStr parts 4)
  let _mingain ← pyParseInt (← pyGetStr parts 5)
  pure { gain := gain, peak := peak / (2 ^ 15 : ℚ) }

/-- The `for` loop of `parse_tool_output`: parse each line in order,
propagating the first exception (the partially built list is lost). -/
def parse_lines : List String → Except PyError (List Gain)
  | [] => .ok []
  | l :: ls =>
    match parse_line l with
    | .error e => .error e
    | .ok g =>
      match parse_lines ls with
      | .error e => .error e
      | .ok gs => .ok (g :: gs)

/-- `CommandBackend.parse_tool_output` (lines 157-175):
`text.split('\n')[1:num_lines + 1]` — skip the header line, take at most
`num_lines` data lines, parse each. -/
def parse_tool_output (text : String) (num_lines : Nat) : Except PyError (List Gain) :=
  parse_lines (((strSplit text '\n').drop 1).take num_lines)

/-- The state of a constructed `CommandBackend` (lines 67-96): the
resolved executable string, the `noclip` flag and the derived
`gain_offset`. -/
structure CommandBackend where
  command : String
  noclip : Bool
  gain_offset : Int
deriving DecidableEq, Repr

/-- The configuration keys `CommandBackend.__init__` reads. -/
structure CBConfig where
  command : String
  noclip : Bool
  targetlevel : ℚ
deriving DecidableEq, Repr

/-- Python `int(q)` on a float: truncation toward zero. -/
def pyInt (q : ℚ) : Int :=
  if 0 ≤ q then ⌊q⌋ else ⌈q⌉

/-- `CommandBackend.__init__` (lines 68-96) after executable resolution:
`resolved` is the executable that the path check or the
`mp3gain`/`aacgain` probe produced (an external, filesystem-dependent
step); the tunables give `noclip` and
`gain_offset = int(target_level - 89)`. -/
def CommandBackend.ofConfig (cfg : CBConfig) (resolved : String) : CommandBackend :=
  { command := resolved
    noclip := cfg.noclip
    gain_offset := pyInt (cfg.targetlevel - 89) }

/-- `CommandBackend.format_supported` (lines 113-118): an `mp3gain`
executable handles only MP3; an `aacgain` executable handles MP3 and
AAC; anything else passes. -/
def CommandBackend.format_supported (cb : CommandBackend) (item : Item) : Bool :=
  if strContains cb.command "mp3gain" && !(item.format == "MP3") then false
  else if strContains cb.command "aacgain" &&
      !(item.format == "MP3" || item.format == "AAC") then false
  else true

/-- The argument vector built by `compute_gain` (lines 133-142):
`cmd = [command, '-o', '-s', 's']`, then `-k` or `-c` by `noclip`, then
`-a` or `-r` by album mode, then `-d` and the offset, then the paths. -/
def CommandBackend.build_cmd (cb : CommandBackend) (items : List Item) (is_album : Bool) :
    List String :=
  let cmd := [cb.command, "-o", "-s", "s"]
  let cmd := cmd ++ (if cb.noclip then ["-k"] else ["-c"])
  let cmd := cmd ++ [if is_album then "-a" else "-r"]
  let cmd := cmd ++ ["-d", toString cb.gain_offset]
  let cmd := cmd ++ items.map (fun i => i.path)
  cmd

/-- `CommandBackend.compute_gain` (lines 120-154): empty input returns
`[]` at once; otherwise build the command and run the tool; a
`ReplayGainError` is logged and turned into `None`; on success parse
`len(items)` lines (`+ 1` in album mode). Parsing exceptions escape. -/
def CommandBackend.compute_gain (cb : CommandBackend) (tool : Tool) (items : List Item)
    (is_album : Bool) : Except PyError (Option (List Gain)) :=
  if items.length = 0 then .ok (some [])
  else
    match tool (cb.build_cmd items is_album) with
    | .error _ => .ok none
    | .ok output =>
      (parse_tool_output output (items.length + (if is_album then 1 else 0))).map
        (fun r => some r)

/-- `CommandBackend.compute_track_gain` (lines 98-101): filter to the
supported formats, run `compute_gain` in track mode, return its output
unchanged. -/
def CommandBackend.compute_track_gain (cb : CommandBackend) (tool : Tool)
    (items : List Item) : Except PyError (Option (List Gain)) :=
  cb.compute_gain tool (items.filter (fun i => cb.format_supported i)) false

/-- `CommandBackend.compute_album_gain` (lines 103-111): if any track is
format-unsupported return `AlbumGain(None, [])`; otherwise run the batch
in album mode and split `output` into `(output[-1], output[:-1])`.
`output[-1]` on the `None` from a failed batch raises `TypeError`, and on
an empty list raises `IndexError`. -/
def CommandBackend.compute_album_gain (cb : CommandBackend) (tool : Tool)
    (album : Album) : Except PyError AlbumGain :=
  let supported_items := album.items.filter (fun i => cb.format_supported i)
  if supported_items.length ≠ album.items.length then .ok { album_gain := none, track_gains := [] }
  else
    match cb.compute_gain tool supported_items true with
    | .error e => .error e
    | .ok none => .error .typeError
    | .ok (some []) => .error .indexError
    | .ok (some (g :: gs)) =>
      .ok { album_gain := some ((g :: gs).getLast (List.cons_ne_nil g gs))
            track_gains := (g :: gs).dropLast }

/-- An observable persistence / write effect emitted by the Orchestrator,
in emission order: `item.store()` inside `store_track_gain`,
`album.store()` inside `store_album_gain`, `item.write()`. -/
inductive Effect where
  | storeTrack
  | storeAlbum
  | writeTags
deriving DecidableEq, Repr

/-- The plugin-level configuration `handle_track` / `handle_album`
consult (`self.overwrite`, line 382). -/
structure Plugin where
  overwrite : Bool
deriving DecidableEq, Repr

/-- `ReplayGainPlugin.track_requires_gain` (lines 392-394):
`overwrite or (not item.rg_track_gain or not item.rg_track_peak)`. -/
def Plugin.track_requires_gain (p : Plugin) (item : Item) : Bool :=
  p.overwrite || (!truthy item.rg_track_gain || !truthy item.rg_track_peak)

/-- `ReplayGainPlugin.album_requires_gain` (lines 397-403):
`overwrite or any(not item.rg_album_gain or not item.rg_album_peak ...)`
over the album's items. -/
def Plugin.album_requires_gain (p : Plugin) (album : Album) : Bool :=
  p.overwrite ||
    album.items.any (fun item => !truthy item.rg_album_gain || !truthy item.rg_album_peak)

/-- `ReplayGainPlugin.handle_track` (lines 447-460), with the duck-typed
`backend_instance.compute_track_gain` as the parameter `backend`. Skips
when no gain is required; `len(track_gains)` on the `None` a failed
`CommandBackend` batch returns raises `TypeError`; a count other than one
warns and returns; otherwise `track_gains[0]` is stored on the item and
the file is written when `write` is set. Returns the item as persisted
plus the effects emitted. -/
def Plugin.handle_track (p : Plugin)
    (backend : List Item → Except PyError (Option (List Gain)))
    (item : Item) (write : Bool) : Except PyError (Item × List Effect) :=
  if !p.track_requires_gain item then .ok (item, [])
  else
    match backend [item] with
    | .error e => .error e
    | .ok none => .error .typeError
    | .ok (some [tg]) =>
      .ok ({ item with rg_track_gain := some tg.gain, rg_track_peak := some tg.peak },
           .storeTrack :: (if write then [.writeTags] else []))
    | .ok (some _) => .ok (item, [])

/-- `ReplayGainPlugin.handle_album` (lines 427-443), with the duck-typed
`backend_instance.compute_album_gain` as the parameter `backend`. Skips
when no gain is required; a track-gain count different from the album's
track count warns and returns; otherwise the album gain is stored
(`album_gain.gain` on `None` would raise `AttributeError`), then each
item's gain pairwise via `izip`, writing per item when `write` is set. -/
def Plugin.handle_album (p : Plugin)
    (backend : Album → Except PyError AlbumGain)
    (album : Album) (write : Bool) : Except PyError (Album × List Effect) :=
  if !p.album_requires_gain album then .ok (album, [])
  else
    match backend album with
    | .error e => .error e
    | .ok album_gain =>
      if album_gain.track_gains.length ≠ album.items.length then .ok (album, [])
      else
        match album_gain.album_gain with
        | none => .error .attributeError
        | some ag =>
          .ok ({ rg_album_gain := some ag.gain
                 rg_album_peak := some ag.peak
                 items := (album.items.zip album_gain.track_gains).map
                   (fun it => { it.1 with rg_track_gain := some it.2.gain,
                                          rg_track_peak := some it.2.peak }) },
               .storeAlbum :: (album.items.zip album_gain.track_gains).flatMap
                 (fun _ => .storeTrack :: (if write then [.writeTags] else [])))

/-- GStreamer pipeline element states (`Gst.State`). -/
inductive GstState where
  | null
  | ready
  | paused
  | playing
deriving DecidableEq, Repr

/-- The mutable state of a `GStreamerBackend` that `compute`
(lines 220-236) touches: the pending file queue `_files`, the per-file
tag accumulator `_file_tags`, the `num-tracks` property of the
`rganalysis` element, the `location` property of the source, the
pipeline state, the current `_file` and whether the main loop was
entered. -/
structure GStreamerBackend where
  files : List Item
  file_tags : List (Item × List (String × ℚ))
  rg_num_tracks : Option Nat
  src_location : Option String
  pipe_state : GstState
  current : Option Item
  loop_running : Bool
deriving DecidableEq, Repr

/-- The state right after `GStreamerBackend.__init__` (lines 186-218):
empty file queue, pipeline built but not started. -/
def GStreamerBackend.init : GStreamerBackend :=
  { files := []
    file_tags := []
    rg_num_tracks := none
    src_location := none
    pipe_state := .null
    current := none
    loop_running := false }

/-- `GStreamerBackend._set_first_file` (lines 295-304): pop the first
queued file, point the source at it, set the pipeline playing. -/
def GStreamerBackend.set_first_file (s : GStreamerBackend) :
    Bool × GStreamerBackend :=
  match s.files with
  | [] => (false, s)
  | f :: rest =>
    (true, { s with files := rest, current := some f, src_location := some f.path,
                    pipe_state := .playing })

/-- How a call to `GStreamerBackend.compute` leaves the caller: it raised
the reentrancy exception, returned without work, or started the pipeline
and entered the blocking main loop. -/
inductive ComputeOutcome where
  | raised
  | returned
  | loopStarted
deriving DecidableEq, Repr

/-- `GStreamerBackend.compute` (lines 220-236) up to the point where the
blocking `self._main_loop.run()` takes over: raise if the previous
batch's queue `_files` is non-empty; store the new file list; return if
it is empty; reset `_file_tags`; in album mode set `num-tracks`; start
the first file and, if that succeeded, enter the main loop. -/
def GStreamerBackend.compute (s : GStreamerBackend) (files : List Item)
    (album : Bool) : ComputeOutcome × GStreamerBackend :=
  if s.files.length ≠ 0 then (.raised, s)
  else
    let s := { s with files := files }
    if s.files.length = 0 then (.returned, s)
    else
      let s := { s with file_tags := [] }
      let s := if album then { s with rg_num_tracks := some s.files.length } else s
      match s.set_first_file with
      | (false, s') => (.returned, s')
      | (true, s') => (.loopStarted, { s' with loop_running := true })

/-! ## Concrete fixtures used to instantiate the theorems -/

/-- A resolved `mp3gain` Command-Backend with default tunables. -/
def mp3cb : CommandBackend :=
  { command := "mp3gain", noclip := true, gain_offset := 0 }

/-- An MP3 track with no replaygain fields set. -/
def mp3item : Item :=
  { path := "a.mp3", format := "MP3", rg_track_gain := none, rg_track_peak := none,
    rg_album_gain := none, rg_album_peak := none }

/-- An Ogg Vorbis track (unsupported by `mp3gain`) with no replaygain
fields set. -/
def oggitem : Item :=
  { path := "b.ogg", format := "OGG", rg_track_gain := none, rg_track_peak := none,
    rg_album_gain := none, rg_album_peak := none }

/-- The plugin with `overwrite` left at its default `false`. -/
def plugin0 : Plugin := { overwrite := false }

/-- `mp3item` after a first `handle_track` stored gain `0` and peak
`16384 / 2 ^ 15` (the gain is falsy for Python truthiness). -/
def mp3itemZeroGain : Item :=
  { mp3item with rg_track_gain := some 0, rg_track_peak := some ((16384 : ℚ) / 2 ^ 15) }

/-- `mp3item` after a first `handle_track` stored gain `3.5` and peak
`16384 / 2 ^ 15` (both truthy), the gain written in the unreduced form
the parser produces. -/
def mp3itemStored : Item :=
  { mp3item with rg_track_gain := some ((3 : ℚ) + 5 / 10 ^ 1),
                 rg_track_peak := some ((16384 : ℚ) / 2 ^ 15) }

/-- A two-track album whose tracks are both MP3, nothing set. -/
def twoMp3Album : Album :=
  { rg_album_gain := none, rg_album_peak := none, items := [mp3item, mp3item] }

/-- A two-track album with one MP3 and one Ogg track, nothing set. -/
def mixedAlbum : Album :=
  { rg_album_gain := none, rg_album_peak := none, items := [mp3item, oggitem] }

/-! ## Helper lemmas -/

theorem parse_lines_length {ls : List String} {gs : List Gain}
    (h : parse_lines ls = .ok gs) : gs.length = ls.length := by
  induction ls generalizing gs with
  | nil =>
    simp only [parse_lines] at h
    cases h
    rfl
  | cons l ls ih =>
    simp only [parse_lines] at h
    cases hp : parse_line l with
    | error e => rw [hp] at h; cases h
    | ok g =>
      rw [hp] at h
      cases hr : parse_lines ls with
      | error e => rw [hr] at h; cases h
      | ok gs' =>
        rw [hr] at h
        cases h
        simp [ih hr]

theorem parse_lines_get {ls : List String} {gs : List Gain}
    (h : parse_lines ls = .ok gs) :
    ∀ i (hi : i < ls.length) (hg : i < gs.length),
      parse_line (ls.get ⟨i, hi⟩) = .ok (gs.get ⟨i, hg⟩) := by
  induction ls generalizing gs with
  | nil => intro i hi; cases hi
  | cons l ls ih =>
    simp only [parse_lines] at h
    cases hp : parse_line l with
    | error e => rw [hp] at h; cases h
    | ok g =>
      rw [hp] at h
      cases hr : parse_lines ls with
      | error e => rw [hr] at h; cases h
      | ok gs' =>
        rw [hr] at h
        cases h
        intro i hi hg
        cases i with
        | zero => simpa using hp
        | succ j => exact ih hr j (Nat.lt_of_succ_lt_succ hi) (Nat.lt_of_succ_lt_succ hg)

theorem filter_length_ne_of_unsupported {l : List Item} {p : Item → Bool} {x : Item}
    (hmem : x ∈ l) (hx : p x = false) :
    (l.filter p).length ≠ l.length := by
  intro hlen
  have := (List.filter_length_eq_length).mp hlen x hmem
  rw [hx] at this
  cases this

/-! ## Claim theorems -/

set_option maxRecDepth 100000

/-- C6: parsing the Command-Backend tool output consisting of a header
line followed by the data line `"file1\t10\t3.5\t16384\t0\t0"` with
expected count 1 yields the single result `Gain(gain = 3.5, peak = 0.5)`,
the peak being the fourth tab-separated field divided by `32768 = 2 ^ 15`. -/
theorem C6_parse_fixture :
    parse_tool_output "h\nfile1\t10\t3.5\t16384\t0\t0\n" 1 =
      .ok [{ gain := 3.5, peak := 16384 / 2 ^ 15 }] ∧
    ({ gain := 3.5, peak := 16384 / 2 ^ 15 } : Gain) = { gain := 3.5, peak := 0.5 } := by
  constructor
  · have h : parse_tool_output "h\nfile1\t10\t3.5\t16384\t0\t0\n" 1 =
        .ok [⟨(3 : ℚ) + 5 / 10 ^ 1, (16384 : ℚ) / 2 ^ 15⟩] := rfl
    rw [h]
    norm_num
  · norm_num

/-- C8: at Command-Backend construction the integer gain offset equals
`targetlevel - 89` (for the integer target levels the claim speaks of):
`targetlevel = 92` yields `gain_offset = 3`, the default
`targetlevel = 89` yields `gain_offset = 0`, and every argument vector
built for the external tool carries `-d` followed by the rendered
offset. -/
theorem C8_gain_offset :
    (∀ (t : ℤ) (c : String) (n : Bool) (r : String),
      (CommandBackend.ofConfig { command := c, noclip := n, targetlevel := (t : ℚ) } r).gain_offset
        = t - 89) ∧
    (∀ (c : String) (n : Bool) (r : String),
      (CommandBackend.ofConfig { command := c, noclip := n, targetlevel := 92 } r).gain_offset = 3) ∧
    (∀ (c : String) (n : Bool) (r : String),
      (CommandBackend.ofConfig { command := c, noclip := n, targetlevel := 89 } r).gain_offset = 0) ∧
    (∀ (cb : CommandBackend) (items : List Item) (is_album : Bool),
      ∃ pre post, cb.build_cmd items is_album =
        pre ++ ["-d", toString cb.gain_offset] ++ post) := by
  have hint : ∀ t : ℤ, pyInt ((t : ℚ) - 89) = t - 89 := by
    intro t
    have : ((t : ℚ) - 89) = ((t - 89 : ℤ) : ℚ) := by push_cast; ring
    rw [this]
    unfold pyInt
    split <;> simp
  refine ⟨fun t c n r => hint t, ?_, ?_, ?_⟩
  · intro c n r
    simp only [CommandBackend.ofConfig]
    norm_num [pyInt]
  · intro c n r
    simp only [CommandBackend.ofConfig]
    norm_num [pyInt]
  · intro cb items is_album
    refine ⟨[cb.command, "-o", "-s", "s"]
        ++ (if cb.noclip then ["-k"] else ["-c"])
        ++ [if is_album then "-a" else "-r"],
      items.map (fun i => i.path), ?_⟩
    simp [CommandBackend.build_cmd]

/-- C9: for every non-empty list of items, the command line built by
`compute_gain` is exactly the executable followed by `-o`, `-s`, `s`,
then `-k` if `noclip` is true else `-c`, then `-a` in album mode else
`-r`, then `-d` and the rendered gain offset, then the path of each item
in input order; and the external invocation made by `compute_gain`
consults the tool at exactly that argument vector (two tools agreeing on
it produce the same result). -/
theorem C9_command_line (cb : CommandBackend) (items : List Item) (is_album : Bool)
    (h : items ≠ []) :
    cb.build_cmd items is_album =
      [cb.command, "-o", "-s", "s"]
        ++ (if cb.noclip then ["-k"] else ["-c"])
        ++ [if is_album then "-a" else "-r"]
        ++ ["-d", toString cb.gain_offset]
        ++ items.map (fun i => i.path) ∧
    ∀ tool1 tool2 : Tool,
      tool1 ([cb.command, "-o", "-s", "s"]
        ++ (if cb.noclip then ["-k"] else ["-c"])
        ++ [if is_album then "-a" else "-r"]
        ++ ["-d", toString cb.gain_offset]
        ++ items.map (fun i => i.path)) =
      tool2 ([cb.command, "-o", "-s", "s"]
        ++ (if cb.noclip then ["-k"] else ["-c"])
        ++ [if is_album then "-a" else "-r"]
        ++ ["-d", toString cb.gain_offset]
        ++ items.map (fun i => i.path)) →
      cb.compute_gain tool1 items is_album = cb.compute_gain tool2 items is_album := by
  have hcmd : cb.build_cmd items is_album =
      [cb.command, "-o", "-s", "s"]
        ++ (if cb.noclip then ["-k"] else ["-c"])
        ++ [if is_album then "-a" else "-r"]
        ++ ["-d", toString cb.gain_offset]
        ++ items.map (fun i => i.path) := by
    simp [CommandBackend.build_cmd]
  refine ⟨hcmd, fun tool1 tool2 ht => ?_⟩
  have hlen : ¬items.length = 0 := by
    simpa [List.length_eq_zero] using h
  rw [← hcmd] at ht
  simp only [CommandBackend.compute_gain, if_neg hlen, ht]

/-- C9 witness: the theorem applied to a concrete one-item batch (its
first component, the exact argument-vector equation). -/
theorem C9_command_line_witness :
    ([mp3item] : List Item) ≠ [] ∧
    mp3cb.build_cmd [mp3item] false =
      [mp3cb.command, "-o", "-s", "s"]
        ++ (if mp3cb.noclip then ["-k"] else ["-c"])
        ++ [if false then "-a" else "-r"]
        ++ ["-d", toString mp3cb.gain_offset]
        ++ ([mp3item] : List Item).map (fun i => i.path) :=
  ⟨by simp, (C9_command_line mp3cb [mp3item] false (by simp)).1⟩

/-- C10: `compute_gain` on an empty item list returns the empty list for
every tool (so without invoking the external process); in particular when
`compute_track_gain` filters out every input track as format-unsupported
it returns `[]`, and `handle_track` on a format-unsupported track then
takes the count-mismatch warn-and-return path rather than raising. -/
theorem C10_empty_batch (cb : CommandBackend) (p : Plugin) (tool : Tool)
    (items : List Item) (item : Item) (is_album write : Bool)
    (hall : ∀ i ∈ items, cb.format_supported i = false)
    (hitem : cb.format_supported item = false)
    (hreq : p.track_requires_gain item = true) :
    (∀ t : Tool, cb.compute_gain t [] is_album = .ok (some [])) ∧
    cb.compute_track_gain tool items = .ok (some []) ∧
    p.handle_track (fun its => cb.compute_track_gain tool its) item write = .ok (item, []) := by
  have hempty : ∀ t : Tool, cb.compute_gain t [] is_album = .ok (some []) := by
    intro t
    simp [CommandBackend.compute_gain]
  have hfilter : items.filter (fun i => cb.format_supported i) = [] := by
    rw [List.filter_eq_nil_iff]
    intro a ha
    simp [hall a ha]
  have htrack : cb.compute_track_gain tool items = .ok (some []) := by
    simp [CommandBackend.compute_track_gain, hfilter, CommandBackend.compute_gain]
  refine ⟨hempty, htrack, ?_⟩
  have hfilter1 : List.filter (fun i => cb.format_supported i) [item] = [] := by
    simp [List.filter, hitem]
  simp [Plugin.handle_track, hreq, CommandBackend.compute_track_gain, hfilter1,
    CommandBackend.compute_gain]

/-- C10 witness: the theorem applied to a concrete unsupported track. -/
theorem C10_empty_batch_witness :
    (∀ i ∈ ([oggitem] : List Item), mp3cb.format_supported i = false) ∧
    mp3cb.format_supported oggitem = false ∧
    plugin0.track_requires_gain oggitem = true ∧
    plugin0.handle_track
      (fun its => mp3cb.compute_track_gain (fun _ => .ok "") its) oggitem false =
      .ok (oggitem, []) :=
  ⟨by decide, by decide, by decide,
   (C10_empty_batch mp3cb plugin0 (fun _ => .ok "") [oggitem] oggitem
     false false (by decide) (by decide) (by decide)).2.2⟩

/-- C2: for a batch of N tracks all of whose formats are supported, when
the tool succeeds and its output is a header line followed by exactly one
well-formed data line per file, `compute_track_gain` returns exactly N
`Gain` values, the i-th parsed from the i-th data line (input order
preserved). -/
theorem C2_track_batch_order (cb : CommandBackend) (tool : Tool) (items : List Item)
    (out header : String) (lines : List String) (gains : List Gain)
    (hsup : ∀ i ∈ items, cb.format_supported i = true)
    (htool : tool (cb.build_cmd items false) = .ok out)
    (hsplit : strSplit out '\n' = header :: lines)
    (hlen : lines.length = items.length)
    (hparse : parse_lines lines = .ok gains) :
    cb.compute_track_gain tool items = .ok (some gains) ∧
    gains.length = items.length ∧
    ∀ i (hi : i < lines.length) (hg : i < gains.length),
      parse_line (lines.get ⟨i, hi⟩) = .ok (gains.get ⟨i, hg⟩) := by
  have hfilter : items.filter (fun i => cb.format_supported i) = items :=
    List.filter_eq_self.mpr hsup
  have hglen : gains.length = items.length := by
    rw [parse_lines_length hparse, hlen]
  refine ⟨?_, hglen, parse_lines_get hparse⟩
  by_cases hnil : items = []
  · subst hnil
    have : lines = [] := List.length_eq_zero.mp hlen
    subst this
    simp only [parse_lines] at hparse
    cases hparse
    simp [CommandBackend.compute_track_gain, CommandBackend.compute_gain]
  · have hlen0 : ¬items.length = 0 := by
      simpa [List.length_eq_zero] using hnil
    have htake : lines.take items.length = lines := by
      rw [← hlen]; exact List.take_length lines
    simp only [CommandBackend.compute_track_gain, CommandBackend.compute_gain, hfilter,
      if_neg hlen0, htool, parse_tool_output, hsplit, List.drop_succ_cons, List.drop_zero]
    simp [htake, hparse, Except.map]

/-- C2 witness: a two-track batch with a two-line tool output, applied to
the theorem; the hypotheses are discharged on the concrete fixture. -/
theorem C2_track_batch_order_witness :
    (∀ i ∈ [mp3item, mp3item], mp3cb.format_supported i = true) ∧
    (fun _ => (.ok "h\nf1\t10\t3\t16384\t0\t0\nf2\t10\t4\t8192\t0\t0" :
        Except RGError String) : Tool) (mp3cb.build_cmd [mp3item, mp3item] false) =
      .ok "h\nf1\t10\t3\t16384\t0\t0\nf2\t10\t4\t8192\t0\t0" ∧
    strSplit "h\nf1\t10\t3\t16384\t0\t0\nf2\t10\t4\t8192\t0\t0" '\n' =
      "h" :: ["f1\t10\t3\t16384\t0\t0", "f2\t10\t4\t8192\t0\t0"] ∧
    (["f1\t10\t3\t16384\t0\t0", "f2\t10\t4\t8192\t0\t0"] : List String).length =
      ([mp3item, mp3item] : List Item).length ∧
    parse_lines ["f1\t10\t3\t16384\t0\t0", "f2\t10\t4\t8192\t0\t0"] =
      .ok [⟨(3 : ℚ), (16384 : ℚ) / 2 ^ 15⟩, ⟨(4 : ℚ), (8192 : ℚ) / 2 ^ 15⟩] ∧
    mp3cb.compute_track_gain
      (fun _ => (.ok "h\nf1\t10\t3\t16384\t0\t0\nf2\t10\t4\t8192\t0\t0" :
        Except RGError String)) [mp3item, mp3item] =
      .ok (some [⟨(3 : ℚ), (16384 : ℚ) / 2 ^ 15⟩, ⟨(4 : ℚ), (8192 : ℚ) / 2 ^ 15⟩]) :=
  ⟨by decide, rfl, rfl, rfl, rfl,
   (C2_track_batch_order mp3cb
     (fun _ => (.ok "h\nf1\t10\t3\t16384\t0\t0\nf2\t10\t4\t8192\t0\t0" :
       Except RGError String))
     [mp3item, mp3item] "h\nf1\t10\t3\t16384\t0\t0\nf2\t10\t4\t8192\t0\t0" "h"
     ["f1\t10\t3\t16384\t0\t0", "f2\t10\t4\t8192\t0\t0"]
     [⟨(3 : ℚ), (16384 : ℚ) / 2 ^ 15⟩, ⟨(4 : ℚ), (8192 : ℚ) / 2 ^ 15⟩]
     (by decide) rfl rfl rfl rfl).1⟩

/-- C3: if the backend's returned track-gain list length differs from the
album's track count, `handle_album` performs no store call at all: the
album and its tracks are returned unmodified and no persistence effect is
emitted. -/
theorem C3_album_count_mismatch (p : Plugin) (backend : Album → Except PyError AlbumGain)
    (album : Album) (ag : AlbumGain) (write : Bool)
    (hb : backend album = .ok ag)
    (hne : ag.track_gains.length ≠ album.items.length) :
    p.handle_album backend album write = .ok (album, []) := by
  unfold Plugin.handle_album
  cases hreq : p.album_requires_gain album with
  | false => simp
  | true => simp [hb, hne]

/-- C3 witness: a backend returning one track gain for a two-track album
causes `handle_album` to persist nothing. -/
theorem C3_album_count_mismatch_witness :
    (fun _ => (.ok ⟨some ⟨1, 1⟩, [⟨1, 1⟩]⟩ : Except PyError AlbumGain) :
        Album → Except PyError AlbumGain) twoMp3Album = .ok ⟨some ⟨1, 1⟩, [⟨1, 1⟩]⟩ ∧
    ([⟨1, 1⟩] : List Gain).length ≠ twoMp3Album.items.length ∧
    plugin0.handle_album (fun _ => .ok ⟨some ⟨1, 1⟩, [⟨1, 1⟩]⟩) twoMp3Album true =
      .ok (twoMp3Album, []) :=
  ⟨rfl, by decide,
   C3_album_count_mismatch plugin0 (fun _ => .ok ⟨some ⟨1, 1⟩, [⟨1, 1⟩]⟩) twoMp3Album
     ⟨some ⟨1, 1⟩, [⟨1, 1⟩]⟩ true rfl (by decide)⟩

/-- C4: for an album containing at least one track whose format the
resolved executable does not support, `compute_album_gain` returns the
unavailable result `AlbumGain(None, [])` for every tool — in particular
without invoking the external tool. -/
theorem C4_album_unsupported (cb : CommandBackend) (album : Album) (item : Item)
    (hmem : item ∈ album.items)
    (hunsup : cb.format_supported item = false) :
    ∀ tool : Tool,
      cb.compute_album_gain tool album = .ok { album_gain := none, track_gains := [] } := by
  intro tool
  have hne : (album.items.filter (fun i => cb.format_supported i)).length ≠
      album.items.length :=
    filter_length_ne_of_unsupported hmem hunsup
  simp [CommandBackend.compute_album_gain, hne]

/-- C4 witness: a two-track album with one Ogg track under `mp3gain`. -/
theorem C4_album_unsupported_witness :
    oggitem ∈ mixedAlbum.items ∧
    mp3cb.format_supported oggitem = false ∧
    mp3cb.compute_album_gain (fun _ => .ok "") mixedAlbum =
      .ok { album_gain := none, track_gains := [] } :=
  ⟨by decide, by decide,
   C4_album_unsupported mp3cb mixedAlbum oggitem (by decide) (by decide) (fun _ => .ok "")⟩

/-- C1 (code behaviour at the claimed scenario): when the external
invocation for a track batch fails, `compute_gain` logs and returns
`None`; `handle_track` then evaluates `len(track_gains)` on that `None`
and raises `TypeError` instead of skipping — the failure is *not*
recovered without raising, contrary to the claim (and to the evident
warn-and-skip intent of the code). -/
theorem C1_tool_failure_raises (p : Plugin) (cb : CommandBackend) (tool : Tool)
    (item : Item) (e : RGError) (write : Bool)
    (hreq : p.track_requires_gain item = true)
    (hsup : cb.format_supported item = true)
    (hfail : tool (cb.build_cmd [item] false) = .error e) :
    cb.compute_track_gain tool [item] = .ok none ∧
    p.handle_track (fun its => cb.compute_track_gain tool its) item write =
      .error .typeError := by
  have hfilter : List.filter (fun i => cb.format_supported i) [item] = [item] := by
    simp [List.filter, hsup]
  have hnone : cb.compute_track_gain tool [item] = .ok none := by
    simp [CommandBackend.compute_track_gain, CommandBackend.compute_gain, hfilter, hfail]
  exact ⟨hnone, by simp [Plugin.handle_track, hreq, hnone]⟩

/-- C1 witness: a supported MP3 track whose external invocation exits
with status 1. -/
theorem C1_tool_failure_raises_witness :
    plugin0.track_requires_gain mp3item = true ∧
    mp3cb.format_supported mp3item = true ∧
    (fun _ => (.error (.exited 1) : Except RGError String) : Tool)
      (mp3cb.build_cmd [mp3item] false) = .error (.exited 1) ∧
    plugin0.handle_track
      (fun its => mp3cb.compute_track_gain (fun _ => .error (.exited 1)) its)
      mp3item false = .error .typeError :=
  ⟨by decide, by decide, rfl,
   (C1_tool_failure_raises plugin0 mp3cb (fun _ => .error (.exited 1)) mp3item
     (.exited 1) false (by decide) (by decide) rfl).2⟩

/-- C5 counterexample: the claim fails when the first call stores a gain
of `0.0`. With `overwrite = false` and a Command-Backend whose tool
reports gain `0` for the track, the first `handle_track` call stores
`(0, 16384 / 2 ^ 15)`; because `track_requires_gain` tests Python
truthiness (`not item.rg_track_gain`), the stored `0.0` counts as unset,
so the second call invokes the backend and stores again (emitting
`storeTrack`, and propagating a failure of a second backend) instead of
being a no-op skip. -/
theorem C5_counterexample :
    plugin0.handle_track
      (fun its => mp3cb.compute_track_gain (fun _ => .ok "h\nf\t0\t0\t16384\t0\t0") its)
      mp3item false = .ok (mp3itemZeroGain, [.storeTrack]) ∧
    plugin0.handle_track
      (fun its => mp3cb.compute_track_gain (fun _ => .ok "h\nf\t0\t0\t16384\t0\t0") its)
      mp3itemZeroGain false = .ok (mp3itemZeroGain, [.storeTrack]) ∧
    plugin0.handle_track (fun _ => .error .valueError) mp3itemZeroGain false =
      .error .valueError := by
  have hreq : plugin0.track_requires_gain mp3itemZeroGain = true := by
    simp [Plugin.track_requires_gain, truthy, plugin0, mp3itemZeroGain]
  refine ⟨rfl, ?_, ?_⟩ <;>
  · simp only [Plugin.handle_track, hreq, Bool.not_true]
    rfl

/-- C5 (amended): calling `handle_track` twice with `overwrite = false`
performs backend computation only once *provided the values stored by
the first call are both non-zero*: the code tests Python truthiness, so
a stored `0.0` gain or peak counts as unset and triggers recomputation.
Under that proviso the second call is a no-op skip that returns the item
unchanged with no effects, for every backend (so the backend is not
invoked). -/
theorem C5_skip_when_truthy (p : Plugin)
    (backend : List Item → Except PyError (Option (List Gain)))
    (item item' : Item) (effs : List Effect) (write : Bool)
    (hov : p.overwrite = false)
    (_h1 : p.handle_track backend item write = .ok (item', effs))
    (hg : truthy item'.rg_track_gain = true)
    (hp : truthy item'.rg_track_peak = true) :
    ∀ backend2 : List Item → Except PyError (Option (List Gain)),
      p.handle_track backend2 item' false = .ok (item', []) := by
  intro backend2
  have hreq : p.track_requires_gain item' = false := by
    simp [Plugin.track_requires_gain, hov, hg, hp]
  simp [Plugin.handle_track, hreq]

/-- C5 witness: a first call that stores the non-zero pair
`(3.5, 16384 / 2 ^ 15)`; the second call skips. -/
theorem C5_skip_when_truthy_witness :
    plugin0.overwrite = false ∧
    plugin0.handle_track
      (fun its => mp3cb.compute_track_gain (fun _ => .ok "h\nf\t0\t3.5\t16384\t0\t0") its)
      mp3item false = .ok (mp3itemStored, [.storeTrack]) ∧
    truthy mp3itemStored.rg_track_gain = true ∧
    truthy mp3itemStored.rg_track_peak = true ∧
    plugin0.handle_track (fun _ => .error .valueError) mp3itemStored false =
      .ok (mp3itemStored, []) :=
  ⟨rfl, rfl, by norm_num [truthy, mp3itemStored], by norm_num [truthy, mp3itemStored],
   C5_skip_when_truthy plugin0
     (fun its => mp3cb.compute_track_gain (fun _ => .ok "h\nf\t0\t3.5\t16384\t0\t0") its)
     mp3item mp3itemStored [.storeTrack] false rfl rfl
     (by norm_num [truthy, mp3itemStored]) (by norm_num [truthy, mp3itemStored])
     (fun _ => .error .valueError)⟩

/-- C7: a Streaming-Backend `compute` call raises before doing anything
when the file queue from a prior call is still non-empty (the state,
including the stored file list, the analyzer's `num-tracks` property and
the pipeline state, is untouched), and never raises that error when the
queue is empty. -/
theorem C7_reentrant_compute (s : GStreamerBackend) (files : List Item) (album : Bool) :
    (s.files ≠ [] → s.compute files album = (.raised, s)) ∧
    (s.files = [] → (s.compute files album).1 ≠ .raised) := by
  constructor
  · intro hne
    have hlen : s.files.length ≠ 0 := by
      simpa [List.length_eq_zero] using hne
    simp [GStreamerBackend.compute, hlen]
  · intro hnil
    cases files with
    | nil => simp [GStreamerBackend.compute, hnil]
    | cons f fs =>
      cases album <;>
        simp [GStreamerBackend.compute, hnil, GStreamerBackend.set_first_file]

/-- C7 witness: with one file still queued, `compute` raises and leaves
the state alone; starting from the fresh state it does not. -/
theorem C7_reentrant_compute_witness :
    ({ GStreamerBackend.init with files := [mp3item] } : GStreamerBackend).files ≠ [] ∧
    ({ GStreamerBackend.init with files := [mp3item] } : GStreamerBackend).compute
        [oggitem] false =
      (.raised, { GStreamerBackend.init with files := [mp3item] }) ∧
    GStreamerBackend.init.files = [] ∧
    (GStreamerBackend.init.compute [oggitem] false).1 ≠ .raised :=
  ⟨by decide,
   (C7_reentrant_compute { GStreamerBackend.init with files := [mp3item] }
     [oggitem] false).1 (by decide),
   rfl,
   (C7_reentrant_compute GStreamerBackend.init [oggitem] false).2 rfl⟩

end Beets
